import Mathlib

/-!
Shallow embedding of the btgsolutions-dataservices python client, restricted to
the parts the verified properties talk about: the routing configuration
(`config.py`), the constructor validation and URL resolution of
`MarketDataWebSocketClient`, the retry / open / close state machine shared by
`WebSocketClient` and `MarketDataWebSocketClient`, the command-sending methods,
the `MarketDataFeed` consumer loop and its latency sampler, `close()` of the
three clients, and the `Authenticator.token` property.

Machine-level conventions used throughout:
* python exceptions are modelled with `Except`; the distinct exception classes
  (`FeedError`, `WSTypeError`, `KeyError`, `ValueError`, `AttributeError`) are
  constructors of explicit error types;
* python dicts of the static routing table are association lists, and
  `d[k]` is `List.lookup` (raising = `none`);
* python truthiness tests (`if bid:`, `if msg_datetime:`, `if self.instruments:`)
  are modelled as the corresponding non-emptiness tests;
* wall-clock values (`time.time()`, decoded `exp` claims) are integers, as the
  code itself compares `int(time.time()) >= exp`.
-/

namespace Btg

/-! ## config.py -/

def MAX_WS_RECONNECT_RETRIES : Nat := 5

def REALTIME : String := "realtime"

def DELAYED : String := "delayed"

def THROTTLE : String := "throttle"

def PROCESSED : String := "processed"

def B3 : String := "b3"

def BMV : String := "bmv"

def SECURITIES : String := "securities"

def TRADES : String := "trades"

def PROCESSEDTRADES : String := "processed-trades"

def BOOKS : String := "books"

def INDICES : String := "indices"

def CANDLES1S : String := "candles-1S"

def CANDLES1M : String := "candles-1M"

def STOPLOSS : String := "stoploss"

def ALL : String := "all"

def STOCKS : String := "stocks"

def OPTIONS : String := "options"

def DERIVATIVES : String := "derivatives"

def VALID_STREAM_TYPES : List String := [REALTIME, DELAYED, THROTTLE]

def VALID_EXCHANGES : List String := [B3, BMV]

def VALID_MARKET_DATA_TYPES : List String :=
  [SECURITIES, TRADES, PROCESSEDTRADES, BOOKS, INDICES, CANDLES1S, CANDLES1M, STOPLOSS]

def VALID_MARKET_DATA_SUBTYPES : List String := [ALL, STOCKS, OPTIONS, DERIVATIVES]

/-- The nested-dict type of `market_data_socket_urls`:
exchange → data type → stream type → subtype → url. -/
abbrev UrlTable :=
  List (String × List (String × List (String × List (String × String))))

/-- `config.market_data_socket_urls`, with the python f-strings spelled out. -/
def market_data_socket_urls : UrlTable :=
  [(B3,
    [(TRADES,
      [(REALTIME,
        [(STOCKS, "wss://dataservices.btgpactualsolutions.com/stream/v2/marketdata/trade/stocks"),
         (OPTIONS, "wss://dataservices.btgpactualsolutions.com/stream/v2/marketdata/trade/options"),
         (DERIVATIVES, "wss://dataservices.btgpactualsolutions.com/stream/v2/marketdata/trade/derivatives")]),
       (DELAYED,
        [(STOCKS, "wss://dataservices.btgpactualsolutions.com/stream/v2/marketdata/trade/stocks/delayed"),
         (OPTIONS, "wss://dataservices.btgpactualsolutions.com/stream/v2/marketdata/trade/options/delayed"),
         (DERIVATIVES, "wss://dataservices.btgpactualsolutions.com/stream/v2/marketdata/trade/derivatives/delayed")]),
       (THROTTLE,
        [(STOCKS, "wss://dataservices.btgpactualsolutions.com/stream/v2/marketdata/throttle/trade/stocks"),
         (OPTIONS, "wss://dataservices.btgpactualsolutions.com/stream/v2/marketdata/throttle/trade/options"),
         (DERIVATIVES, "wss://dataservices.btgpactualsolutions.com/stream/v2/marketdata/throttle/trade/derivatives")])]),
     (PROCESSEDTRADES,
      [(REALTIME,
        [(STOCKS, "wss://dataservices.btgpactualsolutions.com/stream/v2/marketdata/processed/trade/stocks"),
         (OPTIONS, "wss://dataservices.btgpactualsolutions.com/stream/v2/marketdata/processed/trade/options"),
         (DERIVATIVES, "wss://dataservices.btgpactualsolutions.com/stream/v2/marketdata/processed/trade/derivatives")])]),
     (BOOKS,
      [(REALTIME,
        [(STOCKS, "wss://dataservices.btgpactualsolutions.com/stream/v2/marketdata/book/stocks"),
         (OPTIONS, "wss://dataservices.btgpactualsolutions.com/stream/v2/marketdata/book/options"),
         (DERIVATIVES, "wss://dataservices.btgpactualsolutions.com/stream/v2/marketdata/book/derivatives")]),
       (THROTTLE,
        [(STOCKS, "wss://dataservices.btgpactualsolutions.com/stream/v2/marketdata/throttle/book/stocks"),
         (OPTIONS, "wss://dataservices.btgpactualsolutions.com/stream/v2/marketdata/throttle/book/options"),
         (DERIVATIVES, "wss://dataservices.btgpactualsolutions.com/stream/v2/marketdata/throttle/book/derivatives")])]),
     (SECURITIES,
      [(REALTIME,
        [(STOCKS, "wss://dataservices.btgpactualsolutions.com/stream/v1/marketdata/sec_list/stocks"),
         (OPTIONS, "wss://dataservices.btgpactualsolutions.com/stream/v1/marketdata/sec_list/options"),
         (DERIVATIVES, "wss://dataservices.btgpactualsolutions.com/stream/v1/marketdata/sec_list/derivatives")])]),
     (INDICES,
      [(REALTIME,
        [(ALL, "wss://dataservices.btgpactualsolutions.com/stream/v2/marketdata/indices")]),
       (DELAYED,
        [(ALL, "wss://dataservices.btgpactualsolutions.com/stream/v2/marketdata/indices/delayed")])]),
     (CANDLES1S,
      [(REALTIME,
        [(STOCKS, "wss://dataservices.btgpactualsolutions.com/stream/v1/marketdata/candles/1S/stocks"),
         (DERIVATIVES, "wss://dataservices.btgpactualsolutions.com/stream/v1/marketdata/candles/1S/derivatives")])]),
     (CANDLES1M,
      [(REALTIME,
        [(STOCKS, "wss://dataservices.btgpactualsolutions.com/stream/v1/marketdata/candles/1M/stocks"),
         (DERIVATIVES, "wss://dataservices.btgpactualsolutions.com/stream/v1/marketdata/candles/1M/derivatives")])]),
     (STOPLOSS,
      [(REALTIME,
        [(STOCKS, "wss://dataservices.btgpactualsolutions.com/stream/v1/marketdata/stoploss/stocks"),
         (DERIVATIVES, "wss://dataservices.btgpactualsolutions.com/stream/v1/marketdata/stoploss/derivatives")])])]),
   (BMV,
    [(TRADES,
      [(REALTIME,
        [(ALL, "wss://dataservices.btgpactualsolutions.com/stream/v1/marketdata/bmv/trades")])])])]

/-- The nested dict access
`market_data_socket_urls[exchange][data_type][stream_type][data_subtype]`;
`none` models the `KeyError` that the init's `try` block turns into the
unsupported-combination error. -/
def lookupUrl (t : UrlTable) (exchange data_type stream_type data_subtype : String) :
    Option String :=
  (t.lookup exchange).bind fun m1 =>
    (m1.lookup data_type).bind fun m2 =>
      (m2.lookup stream_type).bind fun m3 => m3.lookup data_subtype

/-! ## MarketDataWebSocketClient.__init__ (market_data_websocket_client.py) -/

/-- The typed constructor errors.  `feedError field validOptions` stands for
`FeedError(f"Must provide a valid (field) parameter. Valid options are: (validOptions)")`:
its two arguments are exactly the variable parts of the python message, so the
message names `field` and its accepted set.  `wsTypeError` stands for the
`WSTypeError` raised when the routing-table lookup fails, whose message
interpolates the four request parameters. -/
inductive InitError where
  | feedError (field : String) (validOptions : List String)
  | wsTypeError (stream_type exchange data_type data_subtype : String)
deriving DecidableEq, Repr

/-- A python string object passed as a constructor argument: its text together
with whether it is the interned object that CPython uses for identifier-like
string literals — the very object the config constants (`B3`, `INDICES`, ...)
and any `'b3'`-style literal are bound to.  A string of the same text built at
runtime (for example json-parsed) is a distinct, non-interned object. -/
structure PyStr where
  val : String
  interned : Bool
deriving DecidableEq, Repr

/-- The python identity test `x is c` against the interned constant whose text
is `c`: identical objects have identical text, so the test holds exactly when
`x` is interned and its text is `c`; an equal-but-not-identical object fails
it. -/
def pyIs (x : PyStr) (c : String) : Bool := x.interned && x.val == c

/-- The interned string object of a literal. -/
def PyStr.lit (s : String) : PyStr := { val := s, interned := true }

/-- The `data_subtype is None` defaulting at the top of
`MarketDataWebSocketClient.__init__`, with python identity semantics:
`if exchange is B3 and data_type is not INDICES:` defaults to stocks, else to
all.  The `is` / `is not` tests are object identity, not equality. -/
def mdwsDefaultSubtypePy (exchange data_type : PyStr) : String :=
  if pyIs exchange B3 && !(pyIs data_type INDICES) then STOCKS else ALL

/-- The same defaulting specialized to interned (literal / config-constant)
arguments, for which CPython's identity tests coincide with text equality.
`mdwsDefaultSubtypePy` is the general, identity-faithful form. -/
def mdwsDefaultSubtype (exchange data_type : String) : String :=
  if exchange == B3 && data_type != INDICES then STOCKS else ALL

/-- The per-field validation of `MarketDataWebSocketClient.__init__` followed by
the routing lookup that assigns `self.url`, after the subtype defaulting has
produced `sub`.  The python code repeats the `exchange` check twice; the
repetition has no observable effect and is collapsed here. -/
def mdwsCheck (stream_type exchange data_type sub : String) : Except InitError String :=
  if stream_type ∉ VALID_STREAM_TYPES then
    .error (.feedError "stream_type" VALID_STREAM_TYPES)
  else if exchange ∉ VALID_EXCHANGES then
    .error (.feedError "exchange" VALID_EXCHANGES)
  else if data_type ∉ VALID_MARKET_DATA_TYPES then
    .error (.feedError "data_type" VALID_MARKET_DATA_TYPES)
  else if sub ∉ VALID_MARKET_DATA_SUBTYPES then
    .error (.feedError "data_subtype" VALID_MARKET_DATA_SUBTYPES)
  else match lookupUrl market_data_socket_urls exchange data_type stream_type sub with
    | some url => .ok url
    | none => .error (.wsTypeError stream_type exchange data_type sub)

/-- `MarketDataWebSocketClient.__init__` with the exchange and data type as
python string objects: the identity-based `data_subtype is None` defaulting
happens first, then the value-based validation (`in`) and dict lookup run on
the objects' text. -/
def mdwsInitPy (stream_type : String) (exchange data_type : PyStr)
    (data_subtype : Option String) : Except InitError String :=
  mdwsCheck stream_type exchange.val data_type.val
    (match data_subtype with
     | none => mdwsDefaultSubtypePy exchange data_type
     | some s => s)

/-- `MarketDataWebSocketClient.__init__` specialized to interned (literal)
exchange and data-type arguments — the common call shape, on which the
identity tests coincide with text equality. -/
def mdwsInit (stream_type exchange data_type : String) (data_subtype : Option String) :
    Except InitError String :=
  mdwsCheck stream_type exchange data_type
    (match data_subtype with
     | none => mdwsDefaultSubtype exchange data_type
     | some s => s)

/-- All url strings stored in a routing table (the values of the innermost
dicts). -/
def allUrls (t : UrlTable) : List String :=
  t.flatMap fun p1 => p1.2.flatMap fun p2 => p2.2.flatMap fun p3 => p3.2.map Prod.snd

/-! ## WebSocketClient / MarketDataWebSocketClient command methods and lifecycle
(websocket_client.py, market_data_websocket_client.py) -/

/-- JSON control messages handed to `self.__send` by the public command methods;
one constructor per distinct `(action, params, type)` payload shape. -/
inductive OutMsg where
  | subscribe (params : List String)
  | unsubscribe (params : List String)
  | candleSubscribe (params : List String) (candle_type : String)
  | candleUnsubscribe (params : List String) (candle_type : String)
  | subscribedTo
  | availableToSubscribe
  | notifyStoploss
  | stoplossStatus
  | clearStoploss
  | getLastEvent (ticker : String)
  | latestNews
deriving DecidableEq, Repr

/-- Per-instance state of WebSocketClient / MarketDataWebSocketClient that the
claims talk about: `self.instruments` (assigned once in `__init__`),
`self.__nro_reconnect_retries`, and the sequence of control messages passed to
`self.__send` so far (oldest first). -/
structure WSClientState where
  instruments : List String
  nro_reconnect_retries : Nat
  sent : List OutMsg
deriving DecidableEq, Repr

/-- State produced by `__init__`: stores the instruments list and zeroes the
retry counter; nothing has been sent. -/
def WSClientState.init (instruments : List String) : WSClientState :=
  { instruments := instruments, nro_reconnect_retries := 0, sent := [] }

/-- The method `self.__send(data)`: serializes and writes `data` to the socket;
the only state-relevant effect is the message going out on the wire. -/
def sendMsg (s : WSClientState) (m : OutMsg) : WSClientState :=
  { s with sent := s.sent ++ [m] }

/-- Method `subscribe`. -/
def subscribe (s : WSClientState) (list_instruments : List String) : WSClientState :=
  sendMsg s (.subscribe list_instruments)

/-- Method `unsubscribe`. -/
def unsubscribe (s : WSClientState) (list_instruments : List String) : WSClientState :=
  sendMsg s (.unsubscribe list_instruments)

/-- Method `candle_subscribe`. -/
def candle_subscribe (s : WSClientState) (list_instruments : List String)
    (candle_type : String) : WSClientState :=
  sendMsg s (.candleSubscribe list_instruments candle_type)

/-- Method `candle_unsubscribe`. -/
def candle_unsubscribe (s : WSClientState) (list_instruments : List String)
    (candle_type : String) : WSClientState :=
  sendMsg s (.candleUnsubscribe list_instruments candle_type)

/-- Method `get_last_event`. -/
def get_last_event (s : WSClientState) (ticker : String) : WSClientState :=
  sendMsg s (.getLastEvent ticker)

/-- Messages `intermediary_on_open` sends with no caller involvement:
`if self.instruments: self.subscribe(self.instruments)` —
the stored instrument list, as one subscribe command, when non-empty. -/
def autoOnOpenMsgs (instruments : List String) : List OutMsg :=
  if instruments.isEmpty then [] else [.subscribe instruments]

/-- Events driving one client instance: a successful connection open
(`intermediary_on_open` fires), a connection close (`intermediary_on_close`
fires), or the caller invoking a command method (which sends `m`). -/
inductive ClientEvent where
  | opened
  | closed
  | cmd (m : OutMsg)
deriving DecidableEq, Repr

/-- One step of the client, from the intermediary callbacks installed by
`WebSocketClient.run` (identical in `MarketDataWebSocketClient.run`):
* on open: the caller's `on_open` hook runs, then the client itself subscribes
  `self.instruments` when non-empty, then `self.__nro_reconnect_retries = 0`;
* on close: the caller's `on_close` hook runs, then, if `reconnect`, the handler
  returns when the counter equals `MAX_WS_RECONNECT_RETRIES`, otherwise
  increments it by one and reruns `self.run` (a reconnect attempt);
* a command method call just sends its message.
Returns the new state and whether a reconnect attempt was made. -/
def stepClient (reconnect : Bool) (s : WSClientState) : ClientEvent → WSClientState × Bool
  | .opened =>
    let s1 := if s.instruments.isEmpty then s else subscribe s s.instruments
    ({ s1 with nro_reconnect_retries := 0 }, false)
  | .closed =>
    if reconnect then
      if s.nro_reconnect_retries == MAX_WS_RECONNECT_RETRIES then (s, false)
      else ({ s with nro_reconnect_retries := s.nro_reconnect_retries + 1 }, true)
    else (s, false)
  | .cmd m => (sendMsg s m, false)

/-- Runs a client through a sequence of events. -/
def runClient (reconnect : Bool) (s : WSClientState) : List ClientEvent → WSClientState
  | [] => s
  | e :: es => runClient reconnect (stepClient reconnect s e).1 es

/-! ## Python runtime errors and inbound frames -/

/-- Python exceptions that the modelled code can raise: `KeyError` from a dict
subscript, `ValueError` from `datetime.strptime`, `AttributeError` from reading
an unassigned attribute, and an opaque exception raised by a user-supplied
handler. -/
inductive PyErr where
  | keyError (key : String)
  | valueError (value : String)
  | attributeError (attr : String)
  | handlerError
deriving DecidableEq, Repr

/-- One entry of the "bid" / "offer" array of a book frame; only the presence
and value of its "datetime" key matter to the latency sampler. -/
structure BookEntry where
  datetimeKey : Option String
deriving DecidableEq, Repr

/-- An inbound decoded frame, restricted to the keys the latency sampler reads:
"tTime" and the "bid" / "offer" arrays (each `none` when the key is absent). -/
structure Frame where
  tTime : Option String := none
  bid : Option (List BookEntry) := none
  offer : Option (List BookEntry) := none
deriving DecidableEq, Repr

/-- Subscript `entry["datetime"]`: raises `KeyError` when the key is absent. -/
def BookEntry.datetimeItem (e : BookEntry) : Except PyErr String :=
  match e.datetimeKey with
  | some s => .ok s
  | none => .error (.keyError "datetime")

/-! ## The strptime format "%Y-%m-%dT%H:%M:%S.%fZ"

CPython's `_strptime` compiles the format into a regex; the fragments for the
directives used here are: `%Y` four digits; `%m` one of `1[0-2]`, `0[1-9]`,
`[1-9]`; `%d` one of `3[01]`, `[12]\d`, `0[1-9]`, `[1-9]`; `%H` one of `2[0-3]`,
`[0-1]\d`, `\d`; `%M` one of `[0-5]\d`, `\d`; `%S` one of `6[0-1]`, `[0-5]\d`,
`\d`; `%f` one to six digits (greedy).  The matcher below follows that regex,
with python-re ordered alternation via continuations. -/

/-- Consumes one character satisfying `p`. -/
def patChar (p : Char → Bool) : List Char → Option (List Char)
  | c :: rest => if p c then some rest else none
  | [] => none

/-- Consumes a fixed sequence of character classes. -/
def patChars : List (Char → Bool) → List Char → Option (List Char)
  | [], cs => some cs
  | p :: ps, cs => (patChar p cs).bind (patChars ps)

/-- Ordered alternation with continuation: tries each alternative in order and
matches when the rest of the pattern (`k`) matches what remains, as python `re`
does for a group `(alt1|alt2|...)` followed by more pattern. -/
def altMatch (alts : List (List Char → Option (List Char))) (k : List Char → Bool)
    (cs : List Char) : Bool :=
  alts.any fun alt =>
    match alt cs with
    | some rest => k rest
    | none => false

/-- Sequencing: a fixed pattern followed by the rest of the pattern. -/
def chain (p : List Char → Option (List Char)) (k : List Char → Bool)
    (cs : List Char) : Bool :=
  match p cs with
  | some rest => k rest
  | none => false

/-- End of input (strptime requires the whole string to match). -/
def atEnd : List Char → Bool
  | [] => true
  | _ :: _ => false

/-- Character class of a decimal digit. -/
def digit (c : Char) : Bool := c.isDigit

/-- Character class of a closed character range. -/
def chBetween (lo hi : Char) (c : Char) : Bool := lo ≤ c && c ≤ hi

/-- Character class of one fixed character. -/
def chIs (x : Char) (c : Char) : Bool := c == x

/-- Regex alternatives for `%m`. -/
def monthAlts : List (List Char → Option (List Char)) :=
  [patChars [chIs '1', chBetween '0' '2'],
   patChars [chIs '0', chBetween '1' '9'],
   patChars [chBetween '1' '9']]

/-- Regex alternatives for `%d`. -/
def dayAlts : List (List Char → Option (List Char)) :=
  [patChars [chIs '3', chBetween '0' '1'],
   patChars [chBetween '1' '2', digit],
   patChars [chIs '0', chBetween '1' '9'],
   patChars [chBetween '1' '9']]

/-- Regex alternatives for `%H`. -/
def hourAlts : List (List Char → Option (List Char)) :=
  [patChars [chIs '2', chBetween '0' '3'],
   patChars [chBetween '0' '1', digit],
   patChars [digit]]

/-- Regex alternatives for `%M`. -/
def minuteAlts : List (List Char → Option (List Char)) :=
  [patChars [chBetween '0' '5', digit],
   patChars [digit]]

/-- Regex alternatives for `%S`. -/
def secondAlts : List (List Char → Option (List Char)) :=
  [patChars [chIs '6', chBetween '0' '1'],
   patChars [chBetween '0' '5', digit],
   patChars [digit]]

/-- Regex alternatives for `%f` (one to six digits, greedy order). -/
def fracAlts : List (List Char → Option (List Char)) :=
  (List.range 6).map fun k => patChars (List.replicate (6 - k) digit)

/-- Whether `datetime.strptime(s, "%Y-%m-%dT%H:%M:%S.%fZ")` succeeds on `s`. -/
def strptimeIsoMatch (s : String) : Bool :=
  chain (patChars [digit, digit, digit, digit])
    (chain (patChar (chIs '-'))
      (altMatch monthAlts
        (chain (patChar (chIs '-'))
          (altMatch dayAlts
            (chain (patChar (chIs 'T'))
              (altMatch hourAlts
                (chain (patChar (chIs ':'))
                  (altMatch minuteAlts
                    (chain (patChar (chIs ':'))
                      (altMatch secondAlts
                        (chain (patChar (chIs '.'))
                          (altMatch fracAlts
                            (chain (patChar (chIs 'Z')) atEnd)))))))))))))
    s.data

/-- Call `datetime.strptime(s, "%Y-%m-%dT%H:%M:%S.%fZ")`: raises `ValueError`
when `s` does not match the format.  The parsed value itself (and the
wall-clock latency arithmetic done with it) is irrelevant to the properties
proved here, so the success value is unit. -/
def strptimeIso (s : String) : Except PyErr Unit :=
  if strptimeIsoMatch s then .ok () else .error (.valueError s)

/-! ## MarketDataFeed (market_data_feed.py) -/

/-- Extraction of `msg_datetime` performed identically in
`MarketDataFeed.run`'s consumer loop and in `_ws_client_process.on_message`:
for book data, `bid = message.get("bid"); offer = message.get("offer")`, then
`bid[0]["datetime"]` when `bid` is truthy, else `offer[0]["datetime"]` when
`offer` is truthy, else no timestamp; for every other data type,
`message.get("tTime")`. -/
def extractMsgDatetime (data_type : String) (msg : Frame) : Except PyErr (Option String) :=
  if data_type == BOOKS then
    match msg.bid with
    | some (e :: _) => (e.datetimeItem).map some
    | _ =>
      match msg.offer with
      | some (e :: _) => (e.datetimeItem).map some
      | _ => .ok none
  else .ok msg.tTime

/-- Latency sampling block MarketDataFeed runs on each inbound frame (at DEBUG
log level): extract `msg_datetime`, and `if msg_datetime:` parse it with
strptime and take a sample.  `ok none` means no sample was taken, `ok (some ())`
means a sample was taken, `error` means an exception escaped the block. -/
def latencySample (data_type : String) (msg : Frame) : Except PyErr (Option Unit) := do
  let md ← extractMsgDatetime data_type msg
  match md with
  | some d =>
    if d.isEmpty then pure none
    else do
      let _ ← strptimeIso d
      pure (some ())
  | none => pure none

/-- Body of one iteration of `MarketDataFeed.run`'s consumer loop
(`run_on_new_thread`) for one dequeued frame: `self.on_message(msg)`, then, when
the log level is DEBUG, the latency sampling; neither call is wrapped in any
exception handling, so whatever either raises escapes the iteration. -/
def consumerBody (data_type : String) (debug : Bool)
    (on_message : Frame → Except PyErr Unit) (msg : Frame) : Except PyErr Unit := do
  on_message msg
  if debug then
    let _ ← latencySample data_type msg
    pure ()
  else pure ()

/-- Consumer loop of `MarketDataFeed.run`: invokes the body on queued frames in
arrival order until an iteration raises; an exception ends the `while
self.running` loop (the thread dies), so later frames are never handed to the
body.  Returns the frames the body was invoked on, and the escaping exception
if any. -/
def runConsumer (body : Frame → Except PyErr Unit) : List Frame → List Frame × Option PyErr
  | [] => ([], none)
  | f :: fs =>
    match body f with
    | .ok _ => let r := runConsumer body fs; (f :: r.1, r.2)
    | .error e => ([f], some e)

/-- Callback `intermediary_on_message` of MarketDataWebSocketClient (and of
WebSocketClient): `on_message(data)` with no exception handling of its own, so
whatever the user handler raises propagates to the transport layer. -/
def intermediary_on_message (on_message : Frame → Except PyErr Unit) (data : Frame) :
    Except PyErr Unit :=
  on_message data

/-- Handle on a `multiprocessing.Process`. -/
structure ProcHandle where
  alive : Bool
deriving DecidableEq, Repr

/-- MarketDataFeed state touched by `close()`: the `running` flag shared with
the consumer loop, and `self.process` (`None` until `run()` assigns it). -/
structure MDFState where
  running : Bool
  process : Option ProcHandle
deriving DecidableEq, Repr

/-- Externally visible effects of `MarketDataFeed.close`, in execution order. -/
inductive CloseEffect where
  | clearRunning
  | terminateProc
  | joinProc
deriving DecidableEq, Repr

/-- Method `MarketDataFeed.close`: `self.running = False`, then
`if self.process and self.process.is_alive(): self.process.terminate();
self.process.join()`.  Returns the new state and the effects in the order they
were performed. -/
def mdfClose (s : MDFState) : MDFState × List CloseEffect :=
  let s1 : MDFState := { s with running := false }
  match s1.process with
  | some p =>
    if p.alive then
      ({ s1 with process := some { alive := false } }, [.clearRunning, .terminateProc, .joinProc])
    else (s1, [.clearRunning])
  | none => (s1, [.clearRunning])

/-- Worker-side state of `_ws_client_process` relevant to its `on_open`
callback: the retry counter and the contents of the outbound
`client_message_queue`. -/
structure MDFWorkerState where
  nro_reconnect_retries : Nat
  client_message_queue : List OutMsg
deriving DecidableEq, Repr

/-- Callback `on_open` of `_ws_client_process`: logs, calls the user's
`on_open` hook, and resets the retry counter; it puts nothing on the client
message queue (no automatic subscription). -/
def mdfOnOpen (w : MDFWorkerState) : MDFWorkerState :=
  { w with nro_reconnect_retries := 0 }

/-! ## close() of WebSocketClient / MarketDataWebSocketClient -/

/-- Underlying `websocket.WebSocketApp` of the websocket-client library;
its `close()` shuts the socket down and is a no-op on an already closed app. -/
structure WSApp where
  connected : Bool
deriving DecidableEq, Repr

/-- Library call `WebSocketApp.close()`. -/
def WSApp.close (w : WSApp) : WSApp := { w with connected := false }

/-- Attribute slot `self.ws` of WebSocketClient / MarketDataWebSocketClient:
assigned only inside `run()`; absent before the first `run()` call. -/
structure WSConn where
  ws : Option WSApp
deriving DecidableEq, Repr

/-- Method `WebSocketClient.close` (identical in MarketDataWebSocketClient):
`self.ws.close()`; reading `self.ws` on an instance on which `run()` never ran
raises `AttributeError`. -/
def wsClientClose (c : WSConn) : Except PyErr WSConn :=
  match c.ws with
  | some w => .ok { ws := some w.close }
  | none => .error (.attributeError "ws")

/-! ## Authenticator (rest/authenticator.py) -/

/-- Bearer token string together with its decoded `exp` claim
(`jwt.decode(self._token, ...)["exp"]`), which the code introspects without a
network call. -/
structure Token where
  value : String
  exp : Int
deriving DecidableEq, Repr

/-- Property `Authenticator.token`: decodes `exp` from the cached token and
`if int(time.time()) >= exp: self._token = self.get_new_token()`; returns
`self._token`.  `fetched` is the token a `get_new_token` call would return.
Result: the new cached token, the returned token, and the number of
`get_new_token` calls made. -/
def tokenProperty (now : Int) (fetched : Token) (cached : Token) : Token × Token × Nat :=
  if now ≥ cached.exp then (fetched, fetched, 1) else (cached, cached, 0)

/-! ## Concrete fixtures used to exercise handler-exception behavior -/

/-- A user-supplied `on_message` handler that raises on frames whose tTime is
"boom" and returns normally on every other frame. -/
def boomHandler : Frame → Except PyErr Unit := fun f =>
  if f.tTime == some "boom" then .error .handlerError else .ok ()

/-- A frame `boomHandler` raises on. -/
def frameBoom : Frame := { tTime := some "boom" }

/-- A frame `boomHandler` accepts. -/
def frameOk : Frame := { tTime := some "2024-05-06T14:30:00.123456Z" }

end Btg

deriving instance DecidableEq for Except

namespace Btg

/-! ## Helper lemmas -/

/-- A successful association-list lookup returns a stored pair. -/
theorem lookup_mem {α β : Type} [BEq α] [LawfulBEq α] {l : List (α × β)} {a : α} {b : β}
    (h : l.lookup a = some b) : (a, b) ∈ l := by
  induction l with
  | nil => simp [List.lookup] at h
  | cons hd tl ih =>
    obtain ⟨k, v⟩ := hd
    rw [List.lookup] at h
    split at h
    · next heq =>
      cases h
      have : a = k := eq_of_beq heq
      subst this
      exact List.mem_cons_self _ _
    · exact List.mem_cons_of_mem _ (ih h)

/-- Every url in the static routing table is a non-empty string. -/
theorem allUrls_nonempty :
    (allUrls market_data_socket_urls).all (fun u => !(u == "")) = true := by decide

/-- A url returned by the nested lookup is one of the table's stored urls. -/
theorem lookupUrl_mem_allUrls {t : UrlTable} {e d s sub : String} {url : String}
    (h : lookupUrl t e d s sub = some url) : url ∈ allUrls t := by
  unfold lookupUrl at h
  cases h1 : t.lookup e with
  | none => rw [h1] at h; simp at h
  | some m1 =>
    rw [h1] at h
    simp only [Option.some_bind] at h
    cases h2 : m1.lookup d with
    | none => rw [h2] at h; simp at h
    | some m2 =>
      rw [h2] at h
      simp only [Option.some_bind] at h
      cases h3 : m2.lookup s with
      | none => rw [h3] at h; simp at h
      | some m3 =>
        rw [h3] at h
        simp only [Option.some_bind] at h
        have hm1 : (e, m1) ∈ t := lookup_mem h1
        have hm2 : (d, m2) ∈ m1 := lookup_mem h2
        have hm3 : (s, m3) ∈ m2 := lookup_mem h3
        have hm4 : (sub, url) ∈ m3 := lookup_mem h
        unfold allUrls
        refine List.mem_flatMap.mpr ⟨(e, m1), hm1, ?_⟩
        refine List.mem_flatMap.mpr ⟨(d, m2), hm2, ?_⟩
        refine List.mem_flatMap.mpr ⟨(s, m3), hm3, ?_⟩
        exact List.mem_map.mpr ⟨(sub, url), hm4, rfl⟩

/-- A url the static routing table resolves to is never empty. -/
theorem lookupUrl_ne_empty {e d s sub url : String}
    (h : lookupUrl market_data_socket_urls e d s sub = some url) : url ≠ "" := by
  have hmem := lookupUrl_mem_allUrls h
  have hall := allUrls_nonempty
  rw [List.all_eq_true] at hall
  have hx := hall url hmem
  simpa using hx

/-- The identity-based defaulted subtype is always an accepted subtype. -/
theorem mdwsDefaultSubtypePy_valid (exchange data_type : PyStr) :
    mdwsDefaultSubtypePy exchange data_type ∈ VALID_MARKET_DATA_SUBTYPES := by
  unfold mdwsDefaultSubtypePy
  split <;> decide

/-- On interned (literal) arguments the specialized init agrees with the
identity-faithful one. -/
theorem mdwsInit_eq_lit (st ex dt : String) (dsub : Option String) :
    mdwsInit st ex dt dsub = mdwsInitPy st (PyStr.lit ex) (PyStr.lit dt) dsub := rfl

/-- An invalid stream type is rejected first, whatever the other fields are. -/
theorem mdwsCheck_stream_error {st ex dt sub : String} (h : st ∉ VALID_STREAM_TYPES) :
    mdwsCheck st ex dt sub = .error (.feedError "stream_type" VALID_STREAM_TYPES) := by
  unfold mdwsCheck
  simp [h]

/-- An invalid exchange is rejected next. -/
theorem mdwsCheck_exchange_error {st ex dt sub : String} (h1 : st ∈ VALID_STREAM_TYPES)
    (h2 : ex ∉ VALID_EXCHANGES) :
    mdwsCheck st ex dt sub = .error (.feedError "exchange" VALID_EXCHANGES) := by
  unfold mdwsCheck
  simp [h1, h2]

/-- An invalid data type is rejected next. -/
theorem mdwsCheck_data_type_error {st ex dt sub : String} (h1 : st ∈ VALID_STREAM_TYPES)
    (h2 : ex ∈ VALID_EXCHANGES) (h3 : dt ∉ VALID_MARKET_DATA_TYPES) :
    mdwsCheck st ex dt sub = .error (.feedError "data_type" VALID_MARKET_DATA_TYPES) := by
  unfold mdwsCheck
  simp [h1, h2, h3]

/-- With an accepted subtype, the check never raises the subtype validation
error (any failure is a different field's error or the lookup error). -/
theorem mdwsCheck_no_subtype_error {st ex dt sub : String}
    (hsub : sub ∈ VALID_MARKET_DATA_SUBTYPES) :
    mdwsCheck st ex dt sub ≠
      .error (.feedError "data_subtype" VALID_MARKET_DATA_SUBTYPES) := by
  intro h
  unfold mdwsCheck at h
  rw [if_neg (not_not_intro hsub)] at h
  split at h
  · exact absurd h (by decide)
  · split at h
    · exact absurd h (by decide)
    · split at h
      · exact absurd h (by decide)
      · split at h
        · exact absurd h (by simp)
        · exact absurd h (by simp)

/-- One client step keeps the retry counter within the cap. -/
theorem stepClient_retries_le {reconnect : Bool} {s : WSClientState} {e : ClientEvent}
    (h : s.nro_reconnect_retries ≤ MAX_WS_RECONNECT_RETRIES) :
    ((stepClient reconnect s e).1).nro_reconnect_retries ≤ MAX_WS_RECONNECT_RETRIES := by
  cases e with
  | opened => simp [stepClient]
  | closed =>
    simp only [stepClient]
    unfold MAX_WS_RECONNECT_RETRIES at h ⊢
    split
    · split
      · simpa using h
      · next hne =>
        have hne2 : s.nro_reconnect_retries ≠ 5 := by simpa using hne
        show s.nro_reconnect_retries + 1 ≤ 5
        omega
    · simpa using h
  | cmd m => simpa [stepClient, sendMsg] using h

/-- Any event sequence keeps the retry counter within the cap. -/
theorem runClient_retries_le {reconnect : Bool} (es : List ClientEvent) (s : WSClientState)
    (h : s.nro_reconnect_retries ≤ MAX_WS_RECONNECT_RETRIES) :
    (runClient reconnect s es).nro_reconnect_retries ≤ MAX_WS_RECONNECT_RETRIES := by
  induction es generalizing s with
  | nil => simpa [runClient] using h
  | cons e es ih => exact ih _ (stepClient_retries_le h)

/-- No client step changes `self.instruments`. -/
theorem stepClient_instruments (reconnect : Bool) (s : WSClientState) (e : ClientEvent) :
    ((stepClient reconnect s e).1).instruments = s.instruments := by
  cases e with
  | opened =>
    simp only [stepClient]
    by_cases h : s.instruments.isEmpty <;> simp [h, subscribe, sendMsg]
  | closed =>
    simp only [stepClient]
    split
    · split <;> rfl
    · rfl
  | cmd m => rfl

/-- No event sequence changes `self.instruments`. -/
theorem runClient_instruments (reconnect : Bool) (es : List ClientEvent) (s : WSClientState) :
    (runClient reconnect s es).instruments = s.instruments := by
  induction es generalizing s with
  | nil => rfl
  | cons e es ih => rw [runClient, ih, stepClient_instruments]

/-- The only messages an open adds by itself are the auto-subscription of the
stored instrument list. -/
theorem stepClient_opened_sent (reconnect : Bool) (s : WSClientState) :
    ((stepClient reconnect s .opened).1).sent = s.sent ++ autoOnOpenMsgs s.instruments := by
  by_cases h : s.instruments.isEmpty <;>
    simp [stepClient, autoOnOpenMsgs, subscribe, sendMsg, h]

/-! ## Claim theorems -/

/-- C1: in `MarketDataWebSocketClient.__init__`, each of the four parameters is
validated against its accepted set before the combined routing-table lookup,
and an invalid value is rejected with a `FeedError` naming that parameter and
its accepted set; a tuple passing all per-field checks but absent from
`market_data_socket_urls` raises the unsupported-combination `WSTypeError`;
every tuple present in the table resolves to a non-empty url; and in
particular subtype "crypto" for (b3, trades, realtime) fails with the error
naming `data_subtype`. -/
theorem C1_constructor_validation_and_routing :
    (∀ st ex dt sub, st ∉ VALID_STREAM_TYPES →
      mdwsInit st ex dt sub = .error (.feedError "stream_type" VALID_STREAM_TYPES)) ∧
    (∀ st ex dt sub, st ∈ VALID_STREAM_TYPES → ex ∉ VALID_EXCHANGES →
      mdwsInit st ex dt sub = .error (.feedError "exchange" VALID_EXCHANGES)) ∧
    (∀ st ex dt sub, st ∈ VALID_STREAM_TYPES → ex ∈ VALID_EXCHANGES →
      dt ∉ VALID_MARKET_DATA_TYPES →
      mdwsInit st ex dt sub = .error (.feedError "data_type" VALID_MARKET_DATA_TYPES)) ∧
    (∀ st ex dt sub, st ∈ VALID_STREAM_TYPES → ex ∈ VALID_EXCHANGES →
      dt ∈ VALID_MARKET_DATA_TYPES → sub ∉ VALID_MARKET_DATA_SUBTYPES →
      mdwsInit st ex dt (some sub) =
        .error (.feedError "data_subtype" VALID_MARKET_DATA_SUBTYPES)) ∧
    (∀ st ex dt sub, st ∈ VALID_STREAM_TYPES → ex ∈ VALID_EXCHANGES →
      dt ∈ VALID_MARKET_DATA_TYPES → sub ∈ VALID_MARKET_DATA_SUBTYPES →
      lookupUrl market_data_socket_urls ex dt st sub = none →
      mdwsInit st ex dt (some sub) = .error (.wsTypeError st ex dt sub)) ∧
    (∀ ex dt st sub url, lookupUrl market_data_socket_urls ex dt st sub = some url →
      url ≠ "") ∧
    (mdwsInit REALTIME B3 TRADES (some "crypto") =
      .error (.feedError "data_subtype" VALID_MARKET_DATA_SUBTYPES)) := by
  refine ⟨?_, ?_, ?_, ?_, ?_, ?_, by decide⟩
  · intro st ex dt sub h
    exact mdwsCheck_stream_error h
  · intro st ex dt sub h1 h2
    exact mdwsCheck_exchange_error h1 h2
  · intro st ex dt sub h1 h2 h3
    exact mdwsCheck_data_type_error h1 h2 h3
  · intro st ex dt sub h1 h2 h3 h4
    show mdwsCheck st ex dt sub = _
    unfold mdwsCheck
    simp [h1, h2, h3, h4]
  · intro st ex dt sub h1 h2 h3 h4 h5
    show mdwsCheck st ex dt sub = _
    unfold mdwsCheck
    simp [h1, h2, h3, h4, h5]
  · intro ex dt st sub url h
    exact lookupUrl_ne_empty h

/-- C1 witness: a concrete invalid stream type is rejected with the error
naming `stream_type` and its accepted set. -/
theorem C1_witness :
    ("ultrafast" ∉ VALID_STREAM_TYPES) ∧
    mdwsInit "ultrafast" B3 TRADES (some STOCKS) =
      .error (.feedError "stream_type" VALID_STREAM_TYPES) :=
  ⟨by decide, C1_constructor_validation_and_routing.1 "ultrafast" B3 TRADES (some STOCKS)
    (by decide)⟩

/-- C10 counterexample: the defaulting tests are python object identity, not
equality — an exchange object whose text equals "b3" but which is not the
interned constant (e.g. a json-parsed string) takes the `else` branch: with
data type "trades" the omitted subtype defaults to "all", not "stocks", and
the (b3, trades, realtime, all) lookup then fails with the
unsupported-combination error. -/
theorem C10_counterexample :
    ({ val := "b3", interned := false } : PyStr).val = B3 ∧
    (PyStr.lit TRADES).val ≠ INDICES ∧
    mdwsDefaultSubtypePy { val := "b3", interned := false } (PyStr.lit TRADES) = ALL ∧
    ALL ≠ STOCKS ∧
    mdwsInitPy REALTIME { val := "b3", interned := false } (PyStr.lit TRADES) none =
      .error (.wsTypeError REALTIME B3 TRADES ALL) := by decide

/-- C10 (amended): when `data_subtype` is omitted (`None`),
`MarketDataWebSocketClient` uses "stocks" exactly when the exchange argument is
the interned "b3" string object (`exchange is B3`, true for the config constant
and any identifier-like literal) and the data type argument is not the interned
"indices" object, and "all" in every other case — including an
equal-but-not-identical "b3" string; the defaulting happens before any validity
check (the omitted case behaves exactly as if the defaulted value had been
passed), so an omitted subtype never by itself raises the subtype validation
error. -/
theorem C10_amended_subtype_identity_default :
    (∀ ex dt : PyStr, pyIs ex B3 = true → pyIs dt INDICES = false →
      mdwsDefaultSubtypePy ex dt = STOCKS) ∧
    (∀ ex dt : PyStr, pyIs ex B3 = false ∨ pyIs dt INDICES = true →
      mdwsDefaultSubtypePy ex dt = ALL) ∧
    (∀ st (ex dt : PyStr), mdwsInitPy st ex dt none =
      mdwsInitPy st ex dt (some (mdwsDefaultSubtypePy ex dt))) ∧
    (∀ st (ex dt : PyStr), mdwsInitPy st ex dt none ≠
      .error (.feedError "data_subtype" VALID_MARKET_DATA_SUBTYPES)) := by
  refine ⟨?_, ?_, ?_, ?_⟩
  · intro ex dt h1 h2
    unfold mdwsDefaultSubtypePy
    simp [h1, h2]
  · intro ex dt h
    unfold mdwsDefaultSubtypePy
    rcases h with h | h
    · simp [h]
    · simp [h]
  · intro st ex dt
    rfl
  · intro st ex dt
    show mdwsCheck st ex.val dt.val (mdwsDefaultSubtypePy ex dt) ≠ _
    exact mdwsCheck_no_subtype_error (mdwsDefaultSubtypePy_valid ex dt)

/-- C10 witness: the interned literals (b3, securities) default to "stocks"; a
non-interned "b3" with literal trades defaults to "all"; and an omitted subtype
for (realtime, b3, trades) with interned literals raises no subtype error (it
resolves). -/
theorem C10_witness :
    (pyIs (PyStr.lit B3) B3 = true ∧ pyIs (PyStr.lit SECURITIES) INDICES = false ∧
      mdwsDefaultSubtypePy (PyStr.lit B3) (PyStr.lit SECURITIES) = STOCKS) ∧
    (pyIs { val := "b3", interned := false } B3 = false ∧
      mdwsDefaultSubtypePy { val := "b3", interned := false } (PyStr.lit TRADES) = ALL) ∧
    mdwsInitPy REALTIME (PyStr.lit B3) (PyStr.lit TRADES) none ≠
      .error (.feedError "data_subtype" VALID_MARKET_DATA_SUBTYPES) :=
  ⟨⟨by decide, by decide,
    C10_amended_subtype_identity_default.1 (PyStr.lit B3) (PyStr.lit SECURITIES)
      (by decide) (by decide)⟩,
   ⟨by decide,
    C10_amended_subtype_identity_default.2.1 { val := "b3", interned := false }
      (PyStr.lit TRADES) (Or.inl (by decide))⟩,
   C10_amended_subtype_identity_default.2.2.2 REALTIME (PyStr.lit B3) (PyStr.lit TRADES)⟩

/-- C2: the retry counter starts at 0 at construction, stays within
0 ≤ counter ≤ 5 (= `MAX_WS_RECONNECT_RETRIES`; the lower bound holds because the
counter is a natural number) in every reachable state, is reset to 0 by every
successful open, is incremented by exactly 1 by each reconnect attempt after a
close, and once it equals 5 the close handler returns without attempting a
reconnect. -/
theorem C2_retry_counter_invariant :
    MAX_WS_RECONNECT_RETRIES = 5 ∧
    (∀ instruments, (WSClientState.init instruments).nro_reconnect_retries = 0) ∧
    (∀ reconnect instruments es,
      (runClient reconnect (WSClientState.init instruments) es).nro_reconnect_retries ≤
        MAX_WS_RECONNECT_RETRIES) ∧
    (∀ reconnect s, ((stepClient reconnect s .opened).1).nro_reconnect_retries = 0) ∧
    (∀ s : WSClientState, s.nro_reconnect_retries < MAX_WS_RECONNECT_RETRIES →
      stepClient true s .closed =
        ({ s with nro_reconnect_retries := s.nro_reconnect_retries + 1 }, true)) ∧
    (∀ s : WSClientState, s.nro_reconnect_retries = MAX_WS_RECONNECT_RETRIES →
      stepClient true s .closed = (s, false)) := by
  refine ⟨rfl, fun _ => rfl, ?_, ?_, ?_, ?_⟩
  · intro reconnect instruments es
    exact runClient_retries_le es _ (by simp [WSClientState.init])
  · intro reconnect s
    simp [stepClient]
  · intro s h
    have hne : (s.nro_reconnect_retries == MAX_WS_RECONNECT_RETRIES) = false := by
      simp only [beq_eq_false_iff_ne]
      omega
    simp [stepClient, hne]
  · intro s h
    simp [stepClient, h]

/-- C2 witness: at counter 4 a close increments to 5 and attempts a reconnect;
at counter 5 a close makes no further attempt. -/
theorem C2_witness :
    ((4 : Nat) < MAX_WS_RECONNECT_RETRIES) ∧
    stepClient true { instruments := [], nro_reconnect_retries := 4, sent := [] } .closed =
      ({ instruments := [], nro_reconnect_retries := 5, sent := [] }, true) ∧
    stepClient true { instruments := [], nro_reconnect_retries := 5, sent := [] } .closed =
      ({ instruments := [], nro_reconnect_retries := 5, sent := [] }, false) :=
  ⟨by decide,
   C2_retry_counter_invariant.2.2.2.2.1
     { instruments := [], nro_reconnect_retries := 4, sent := [] } (by decide),
   C2_retry_counter_invariant.2.2.2.2.2
     { instruments := [], nro_reconnect_retries := 5, sent := [] } rfl⟩

/-- C3 counterexample: a client constructed with instruments
["PETR4", "VALE3"] that opens, drops, and re-opens sends a subscribe command
for those instruments on the reconnect open with no caller-issued command in
the trace — the claim that no subscribe is sent automatically after a
reconnect is false. -/
theorem C3_counterexample :
    (runClient true (WSClientState.init ["PETR4", "VALE3"])
        [ClientEvent.opened, ClientEvent.closed, ClientEvent.opened]).sent =
      (runClient true (WSClientState.init ["PETR4", "VALE3"])
        [ClientEvent.opened, ClientEvent.closed]).sent ++
        [OutMsg.subscribe ["PETR4", "VALE3"]] := by decide

/-- C3 (amended): on every successful open — the first one and every reconnect
open alike — WebSocketClient and MarketDataWebSocketClient automatically send
exactly one subscribe command for the constructor-supplied instrument list when
it is non-empty, and nothing when it is empty; this automatic list is the
constructor list no matter which subscribe/unsubscribe calls happened before;
and MarketDataFeed's on_open enqueues no automatic command at all. -/
theorem C3_amended_auto_resubscribe :
    (∀ reconnect s,
      ((stepClient reconnect s .opened).1).sent = s.sent ++ autoOnOpenMsgs s.instruments) ∧
    (∀ instruments, autoOnOpenMsgs instruments =
      if instruments.isEmpty then [] else [OutMsg.subscribe instruments]) ∧
    (∀ reconnect instruments es,
      autoOnOpenMsgs ((runClient reconnect (WSClientState.init instruments) es).instruments) =
        autoOnOpenMsgs instruments) ∧
    (∀ w, (mdfOnOpen w).client_message_queue = w.client_message_queue) := by
  refine ⟨stepClient_opened_sent, fun _ => rfl, ?_, fun _ => rfl⟩
  intro reconnect instruments es
  rw [runClient_instruments]
  rfl

/-- C9: no command method and no connection event ever mutates
`self.instruments`: after any event sequence it is still exactly the
constructor-supplied list, and therefore the instrument set automatically
re-sent on each connection open is always the constructor-supplied list, never
the set subscribed or unsubscribed later. -/
theorem C9_instruments_never_mutated :
    (∀ reconnect s e, ((stepClient reconnect s e).1).instruments = s.instruments) ∧
    (∀ reconnect instruments es,
      (runClient reconnect (WSClientState.init instruments) es).instruments = instruments) ∧
    (∀ reconnect instruments es,
      ((stepClient reconnect (runClient reconnect (WSClientState.init instruments) es)
          .opened).1).sent =
        (runClient reconnect (WSClientState.init instruments) es).sent ++
          autoOnOpenMsgs instruments) := by
  refine ⟨fun r s e => stepClient_instruments r s e, ?_, ?_⟩
  · intro reconnect instruments es
    exact runClient_instruments reconnect es _
  · intro reconnect instruments es
    rw [stepClient_opened_sent, runClient_instruments]
    rfl

/-- C4 counterexample: with a handler that raises on the first queued frame,
the process-isolated consumer loop stops at that frame and never delivers the
second queued frame, and the inline dispatcher returns the handler's exception
instead of catching it — refuting the claim that every subsequent frame is
still delivered and that the inline dispatcher catches and reports. -/
theorem C4_counterexample :
    runConsumer (consumerBody TRADES false boomHandler) [frameBoom, frameOk] =
      ([frameBoom], some PyErr.handlerError) ∧
    intermediary_on_message boomHandler frameBoom = .error .handlerError := by
  constructor
  · decide
  · decide

/-- C4 (amended): the repository installs no exception handling around the user
handler: the inline dispatcher `intermediary_on_message` returns exactly what
the handler produces (an exception propagates to the transport layer), and the
isolated-variant consumer loop delivers queued frames in order only until the
first iteration whose body raises — that exception ends the loop and no later
queued frame is delivered — while delivering every queued frame when no
iteration raises.  (The worker-process read loop itself is unaffected by
handler exceptions, since the handler runs in the parent process.) -/
theorem C4_amended_handler_exception :
    (∀ h d, intermediary_on_message h d = h d) ∧
    (∀ body fs, (∀ g ∈ fs, body g = .ok ()) → runConsumer body fs = (fs, none)) ∧
    (∀ body fs1 f fs2 e, (∀ g ∈ fs1, body g = .ok ()) → body f = .error e →
      runConsumer body (fs1 ++ f :: fs2) = (fs1 ++ [f], some e)) := by
  refine ⟨fun _ _ => rfl, ?_, ?_⟩
  · intro body fs h
    induction fs with
    | nil => rfl
    | cons g gs ih =>
      have hg : body g = .ok () := h g (by simp)
      simp only [runConsumer, hg]
      rw [ih (fun x hx => h x (by simp [hx]))]
  · intro body fs1 f fs2 e h1 h2
    induction fs1 with
    | nil =>
      simp only [List.nil_append, runConsumer, h2]
    | cons g gs ih =>
      have hg : body g = .ok () := h1 g (by simp)
      simp only [List.cons_append, runConsumer, hg, List.append_eq]
      rw [ih (fun x hx => h1 x (by simp [hx]))]

/-- C4 witness: concrete instantiation — one clean frame, then a raising frame,
then another clean frame: the loop delivers the first two and dies, leaving the
third undelivered. -/
theorem C4_witness :
    (∀ g ∈ [frameOk], consumerBody TRADES false boomHandler g = .ok ()) ∧
    consumerBody TRADES false boomHandler frameBoom = .error PyErr.handlerError ∧
    runConsumer (consumerBody TRADES false boomHandler) ([frameOk] ++ frameBoom :: [frameOk]) =
      ([frameOk] ++ [frameBoom], some PyErr.handlerError) :=
  ⟨by decide, by decide,
   C4_amended_handler_exception.2.2 (consumerBody TRADES false boomHandler)
     [frameOk] frameBoom [frameOk] PyErr.handlerError (by decide) (by decide)⟩

/-- Closing an already-halted feed only clears the flag again: after any
close, the worker is no longer alive. -/
theorem mdfClose_twice (s : MDFState) :
    ((mdfClose s).1).running = false ∧
    ((mdfClose (mdfClose s).1).1).running = false ∧
    (mdfClose (mdfClose s).1).2 = [CloseEffect.clearRunning] := by
  obtain ⟨r, proc⟩ := s
  cases proc with
  | none => exact ⟨rfl, rfl, rfl⟩
  | some p =>
    obtain ⟨a⟩ := p
    cases a
    · exact ⟨rfl, rfl, rfl⟩
    · exact ⟨rfl, rfl, rfl⟩

/-- C5 counterexample: calling close() on a WebSocketClient /
MarketDataWebSocketClient instance on which run() was never invoked raises
AttributeError (`self.ws` was never assigned) — refuting the claim that
close() is always safe on every client instance. -/
theorem C5_counterexample :
    wsClientClose { ws := none } = .error (.attributeError "ws") := rfl

/-- C5 (amended): once run() has assigned the connection, close() is idempotent
— calling it twice produces no error and leaves the connection closed both
times — and MarketDataFeed.close is idempotent and safe even on an instance on
which run() was never invoked; but WebSocketClient and
MarketDataWebSocketClient raise AttributeError when close() is called before
any run(). -/
theorem C5_amended_close_idempotent :
    (∀ w : WSApp,
      wsClientClose { ws := some w } = .ok { ws := some { connected := false } } ∧
      wsClientClose { ws := some (WSApp.close w) } = .ok { ws := some { connected := false } }) ∧
    (∀ s : MDFState,
      ((mdfClose s).1).running = false ∧
      ((mdfClose (mdfClose s).1).1).running = false ∧
      (mdfClose (mdfClose s).1).2 = [CloseEffect.clearRunning]) ∧
    (mdfClose { running := false, process := none } =
      ({ running := false, process := none }, [CloseEffect.clearRunning])) ∧
    wsClientClose { ws := none } = .error (.attributeError "ws") := by
  refine ⟨fun w => ⟨rfl, rfl⟩, mdfClose_twice, rfl, rfl⟩

/-- C6 counterexample: with a live worker, MarketDataFeed.close clears the
shared running flag first and only afterwards terminates and joins the worker
— not the claimed order (terminate, join, then clear). -/
theorem C6_counterexample :
    (mdfClose { running := true, process := some { alive := true } }).2 =
      [CloseEffect.clearRunning, CloseEffect.terminateProc, CloseEffect.joinProc] ∧
    [CloseEffect.clearRunning, CloseEffect.terminateProc, CloseEffect.joinProc] ≠
      [CloseEffect.terminateProc, CloseEffect.joinProc, CloseEffect.clearRunning] :=
  ⟨rfl, by decide⟩

/-- C6 (amended): MarketDataFeed.close first clears the shared running flag —
stopping the local consumer loop — and then, exactly when a live worker process
exists, terminates and joins it, in that order; with no live worker the flag
clear is the only effect. -/
theorem C6_amended_close_order :
    ∀ s : MDFState,
      (mdfClose s).2 =
        CloseEffect.clearRunning ::
          (match s.process with
           | some p => if p.alive then [CloseEffect.terminateProc, CloseEffect.joinProc] else []
           | none => []) ∧
      ((mdfClose s).1).running = false := by
  intro s
  obtain ⟨r, proc⟩ := s
  cases proc with
  | none => exact ⟨rfl, rfl⟩
  | some p =>
    obtain ⟨a⟩ := p
    cases a
    · exact ⟨rfl, rfl⟩
    · exact ⟨rfl, rfl⟩

/-- C7: when the cached token's decoded exp claim is ≤ now, reading the token
property makes exactly one get_new_token call, replaces the cached token with
the fetched one, and returns it; when the exp claim is in the future, it makes
no remote call and returns the cached token unchanged. -/
theorem C7_token_refresh :
    (∀ (now : Int) (fetched cached : Token), cached.exp ≤ now →
      tokenProperty now fetched cached = (fetched, fetched, 1)) ∧
    (∀ (now : Int) (fetched cached : Token), now < cached.exp →
      tokenProperty now fetched cached = (cached, cached, 0)) := by
  constructor
  · intro now fetched cached h
    simp [tokenProperty, h]
  · intro now fetched cached h
    simp [tokenProperty, not_le.mpr h]

/-- C7 witness: an expired cached token (exp 0 ≤ now 100) is replaced by one
fetch; a fresh cached token (now 100 < exp 900) is returned with no fetch. -/
theorem C7_witness :
    (((0 : Int) ≤ 100) ∧
      tokenProperty 100 { value := "new", exp := 900 } { value := "old", exp := 0 } =
        ({ value := "new", exp := 900 }, { value := "new", exp := 900 }, 1)) ∧
    (((100 : Int) < 900) ∧
      tokenProperty 100 { value := "newer", exp := 1800 } { value := "new", exp := 900 } =
        ({ value := "new", exp := 900 }, { value := "new", exp := 900 }, 0)) :=
  ⟨⟨by decide, C7_token_refresh.1 100 { value := "new", exp := 900 }
      { value := "old", exp := 0 } (by decide)⟩,
   ⟨by decide, C7_token_refresh.2 100 { value := "newer", exp := 1800 }
      { value := "new", exp := 900 } (by decide)⟩⟩

/-- C8: the latency sampler can raise, contrary to the claim: a malformed
timestamp string makes strptime raise ValueError, and a non-empty bid entry
without a "datetime" key raises KeyError — both uncaught; meanwhile a frame
with no timestamp at all yields no sample, and a well-formed timestamp yields a
sample, as claimed. -/
theorem C8_sampler_can_raise :
    latencySample TRADES { tTime := some "not-a-timestamp" } =
      .error (.valueError "not-a-timestamp") ∧
    latencySample BOOKS { bid := some [{ datetimeKey := none }] } =
      .error (.keyError "datetime") ∧
    latencySample TRADES {} = .ok none ∧
    latencySample TRADES { tTime := some "2024-05-06T14:30:00.123456Z" } = .ok (some ()) := by
  refine ⟨by decide, by decide, by decide, by decide⟩

end Btg
